import Mathlib

/-!
Verification of the incremental lighting-preview engine
(`src/hammer/lpreview_thread.cpp`) against its specification.

Modelling conventions (shallow embedding):
* C++ `float` quantities (contributions, distances, times, positions) are
  modelled as `ℚ`; only orderings, equalities with zero and exact arithmetic
  on them matter to the verified properties.
* C++ 32-bit `int` bit masks are modelled as `Nat` values below `2^32`; a
  shift `1 << c` with `c ≥ 32` (which is undefined behaviour in C++) is
  modelled as the mathematical `1 <<< c`, whose AND against a mask `< 2^32`
  is zero.
* Square roots (`Vector::DistTo`, `FourVectors::length`) do not exist on
  `ℚ`; where a length is needed it is passed as a parameter constrained by
  `len * len = squared norm`, or abstracted as a distance function argument.
* The SIMD code processes four pixels at a time; a SIMD variable is a lane
  function `Fin 4 → _`.
-/

namespace LPreview

set_option maxRecDepth 16384

/-- A 3-component vector, modelling the source's `Vector` (components as ℚ). -/
structure Vec3 where
  x : ℚ
  y : ℚ
  z : ℚ
deriving DecidableEq

instance : Add Vec3 := ⟨fun a b => ⟨a.x + b.x, a.y + b.y, a.z + b.z⟩⟩

instance : Sub Vec3 := ⟨fun a b => ⟨a.x - b.x, a.y - b.y, a.z - b.z⟩⟩

instance : SMul ℚ Vec3 := ⟨fun c v => ⟨c * v.x, c * v.y, c * v.z⟩⟩

/-- The zero vector. -/
def Vec3.zero : Vec3 := ⟨0, 0, 0⟩

/-- Squared Euclidean norm of a `Vec3`. -/
def Vec3.normSq (v : Vec3) : ℚ := v.x * v.x + v.y * v.y + v.z * v.z

/-- Componentwise minimum (`MinSIMD` per component). -/
def Vec3.cmin (a b : Vec3) : Vec3 := ⟨min a.x b.x, min a.y b.y, min a.z b.z⟩

/-- Componentwise maximum (`MaxSIMD` per component). -/
def Vec3.cmax (a b : Vec3) : Vec3 := ⟨max a.x b.x, max a.y b.y, max a.z b.z⟩

/-- `enum IncrementalLightState` from lpreview_thread.cpp lines 25-31:
`noRes` = INCR_STATE_NO_RESULTS (0), `partRes` = INCR_STATE_PARTIAL_RESULTS (1),
`stNew` = INCR_STATE_NEW (2), `haveFull` = INCR_STATE_HAVE_FULL_RESULTS (3). -/
inductive IncrState where
  | noRes
  | partRes
  | stNew
  | haveFull
deriving DecidableEq

/-- The light type tag: the source only ever tests
`m_Type == MATERIAL_LIGHT_DIRECTIONAL`, so the model keeps a two-valued tag
(`directional` vs any other light type). -/
inductive LightType where
  | directional
  | other
deriving DecidableEq

/-- The fields of `CLightingPreviewLightDescription` that the verified code
reads: stable object id, type tag and world position. -/
structure LightDescr where
  nObjectID : Int
  lightType : LightType
  position : Vec3
deriving DecidableEq

/-- `CIncrementalLightInfo` (lpreview_thread.cpp lines 36-85).  The
contribution matrix `m_CalculatedContribution` is tracked by its dimensions
only (`SetSize(0,0)` releases it); its pixel contents are modelled separately
in the shading-kernel section. -/
structure IncrInfo where
  nObjectID : Int
  eIncrState : IncrState
  partResultsStage : Int
  contributionSize : Nat × Nat
  fTotalContribution : ℚ
  fDistanceToEye : ℚ
  nMostRecentNonZeroContributionTimeStamp : Int
deriving DecidableEq

/-- The `CIncrementalLightInfo` constructor (lines 50-60). -/
def IncrInfo.init : IncrInfo :=
  { nObjectID := -1
    eIncrState := .stNew
    partResultsStage := 0
    contributionSize := (0, 0)
    fTotalContribution := 0
    fDistanceToEye := 0
    nMostRecentNonZeroContributionTimeStamp := 0 }

/-- `CIncrementalLightInfo::DiscardResults` (lines 62-67): release the
contribution matrix; any state other than NEW becomes NO_RESULTS. -/
def IncrInfo.discardResults (i : IncrInfo) : IncrInfo :=
  { i with
    contributionSize := (0, 0)
    eIncrState := if i.eIncrState = .stNew then .stNew else .noRes }

/-- `CIncrementalLightInfo::HasWorkToDo` (lines 76-79). -/
def IncrInfo.hasWorkToDo (i : IncrInfo) : Bool :=
  i.eIncrState ≠ .haveFull

/-- `N_INCREMENTAL_STEPS` (line 87). -/
def N_INCREMENTAL_STEPS : Nat := 32

/-- The bit-reversal loop inside `InitIncrementalInformation`
(lines 314-324), with explicit fuel: `mskTest` starts at `N/2 = 16` and is
halved until zero, so 6 units of fuel always suffice. -/
def bitRevAux : Nat → Nat → Nat → Nat → Nat → Nat
  | 0, _, msk, _, _ => msk
  | fuel + 1, i, msk, mskOr, mskTest =>
    if mskTest = 0 then msk
    else
      bitRevAux fuel i (if i &&& mskTest ≠ 0 then msk ||| mskOr else msk)
        (mskOr <<< 1) (mskTest >>> 1)

/-- Bit-reverse `i` over `log2 N = 5` bits, as computed per loop iteration of
`InitIncrementalInformation` (lines 314-324). -/
def bitReverse (i : Nat) : Nat :=
  bitRevAux 6 i 0 1 (N_INCREMENTAL_STEPS >>> 1)

/-- `m_LineMask[k]`: the running `calculated_bit_mask` after loop iteration
`k` of `InitIncrementalInformation` (lines 311-327):
`calculated_bit_mask |= 1 << bitReverse k`. -/
def lineMask : Nat → Nat
  | 0 => 1 <<< bitReverse 0
  | k + 1 => lineMask k ||| (1 <<< bitReverse (k + 1))

/-- The absolute difference `abs (a - b)` on C ints, as a `Nat`. -/
def idist (a b : Nat) : Nat := ((a : Int) - (b : Int)).natAbs

/-- `m_ClosestLineOffset[lvl][linemod]` (lines 329-340): starting from the
sentinel 1000000, scan `chk` from 0 **up to `linemod` only**, and keep the
set bit of `m_LineMask[lvl]` strictly closest to `linemod` (scanning upward
with a strict comparison keeps the lowest index on a tie). -/
def closestLineOffset (lvl linemod : Nat) : Nat :=
  (List.range (linemod + 1)).foldl
    (fun closest chk =>
      if lineMask lvl &&& (1 <<< chk) ≠ 0 ∧ idist chk linemod < idist closest linemod
      then chk else closest)
    1000000

/-- Modelled from the spec: `Vector::WithinAABox` is declared in the
engine's external math library and is not among the source files; the spec
reads "its position lies within the scene bounds", i.e. componentwise
containment in the box `[mn, mx]`. -/
def withinAABox (v mn mx : Vec3) : Bool :=
  decide (mn.x ≤ v.x ∧ v.x ≤ mx.x ∧ mn.y ≤ v.y ∧ v.y ≤ mx.y ∧
    mn.z ≤ v.z ∧ v.z ≤ mx.z)

/-- A light description together with its incremental info: the source links
`CLightingPreviewLightDescription::m_pIncrementalInfo` and
`CIncrementalLightInfo::m_pLight` by back-pointers. -/
abbrev LightPair := LightDescr × IncrInfo

/-- `CIncrementalLightInfo::IsHighPriority` (lines 227-234): true iff the
state is NEW and the light position lies within the view bounds
`[m_MinViewCoords, m_MaxViewCoords]`.  The light's type is not consulted. -/
def isHighPriority (mn mx : Vec3) (p : LightPair) : Bool :=
  p.2.eIncrState == .stNew && withinAABox p.1.position mn mx

/-- The `switch (state_combo)` body of
`CIncrementalLightInfo::IsLowerPriorityThan` (lines 247-306), reached when
the high-priority test does not decide.  A state pair outside the nine
listed combinations (any pair involving HAVE_FULL_RESULTS) falls out of the
switch and returns false. -/
def lowerCore (a b : LightPair) : Bool :=
  let ai := a.2
  let bi := b.2
  match ai.eIncrState, bi.eIncrState with
  | .stNew, .stNew => decide (ai.fDistanceToEye > bi.fDistanceToEye)
  | .stNew, .noRes => decide (bi.fTotalContribution > 0)
  | .stNew, .partRes => false
  | .partRes, .stNew => true
  | .noRes, .stNew => decide (ai.fTotalContribution = 0)
  | .partRes, .partRes =>
    if ai.fTotalContribution = 0 ∧ bi.fTotalContribution = 0 ∧
        bi.nMostRecentNonZeroContributionTimeStamp >
          ai.nMostRecentNonZeroContributionTimeStamp then true
    else if bi.fTotalContribution = 0 ∧ ai.fTotalContribution > 0 then false
    else if ai.fTotalContribution = 0 ∧ bi.fTotalContribution > 0 then true
    else if (ai.partResultsStage - bi.partResultsStage).natAbs ≤ 1 then
      decide (ai.fTotalContribution < bi.fTotalContribution)
    else decide (ai.partResultsStage > bi.partResultsStage)
  | .partRes, .noRes =>
    if bi.fTotalContribution ≠ 0 then true
    else if ai.fTotalContribution = 0 ∧ bi.fTotalContribution = 0 then
      decide (bi.nMostRecentNonZeroContributionTimeStamp >
        ai.nMostRecentNonZeroContributionTimeStamp)
    else decide (ai.fTotalContribution < bi.fTotalContribution)
  | .noRes, .partRes =>
    if ai.fTotalContribution ≠ 0 then false
    else if ai.fTotalContribution = 0 ∧ bi.fTotalContribution = 0 then
      decide (bi.nMostRecentNonZeroContributionTimeStamp >
        ai.nMostRecentNonZeroContributionTimeStamp)
    else decide (ai.fTotalContribution < bi.fTotalContribution)
  | .noRes, .noRes =>
    if ai.fTotalContribution = 0 ∧ bi.fTotalContribution = 0 then
      decide (bi.nMostRecentNonZeroContributionTimeStamp >
        ai.nMostRecentNonZeroContributionTimeStamp)
    else decide (ai.fTotalContribution < bi.fTotalContribution)
  | _, _ => false

/-- `CIncrementalLightInfo::IsLowerPriorityThan` (lines 236-307): the
high-priority test decides first, then the state-combination switch. -/
def isLowerPriorityThan (mn mx : Vec3) (a b : LightPair) : Bool :=
  let highpriority := isHighPriority mn mx a
  let other_highpriority := isHighPriority mn mx b
  if highpriority && !other_highpriority then false
  else if other_highpriority && !highpriority then true
  else lowerCore a b

/-- Four SIMD lanes of 3-vectors (the source's `FourVectors`). -/
abbrev FourVectors := Fin 4 → Vec3

/-- The source's `FourRays`: a packet of four rays, origin and direction per
lane. -/
structure FourRays where
  origin : FourVectors
  direction : FourVectors

/-- The per-lane results of `RayTracingEnvironment::Trace4Rays` (external
library): `HitIds` and `HitDistance` per lane. -/
structure RayTracingResult where
  hitIds : Fin 4 → Int
  hitDistance : Fin 4 → ℚ

/-- The shadow-ray packet construction of `CalculateForLightTask`
(lines 605-617): `direction = (lpos - pos) * (1/len)`,
`origin = 0.02 * direction + pos`.  `len` is the per-lane Euclidean length
of `lpos - pos`, passed as a parameter (`ℚ` has no square root;
`ReciprocalSIMD` is modelled as the exact reciprocal). -/
def buildShadowRay (lightPos : Vec3) (pos : FourVectors) (len : Fin 4 → ℚ) :
    FourRays :=
  let dir : FourVectors := fun i => (1 / len i) • (lightPos - pos i)
  { direction := dir
    origin := fun i => ((0.02 : ℚ) • dir i) + pos i }

/-- The TMin argument passed to `Trace4Rays` (line 620): `Four_Zeros`. -/
def traceTMin : ℚ := 0

/-- The TMax argument passed to `Trace4Rays` (line 620):
`ReplicateX4 (1.0e9)`. -/
def traceTMax : ℚ := 1000000000

/-- The per-lane shadow mask (lines 622-624): a lane's contribution is
discarded iff its hit id is ≥ 0 and its hit distance is below that lane's
ray length. -/
def shadowMask (r : RayTracingResult) (len : Fin 4 → ℚ) (i : Fin 4) : Bool :=
  decide (0 ≤ r.hitIds i) && decide (r.hitDistance i < len i)

/-- The value stored into the contribution matrix for one 4-pixel group of
`CalculateForLightTask` (lines 600-638; the albedo/threshold accumulation
into the running row total concerns no claim and is omitted): when the
unshadowed contribution `lAdd` is identically zero across the four lanes it
is stored unchanged and no rays are traced; otherwise the shadow packet is
built and traced (`tracer` abstracts `Trace4Rays` over the ray-tracing
environment) and every masked lane is zeroed.  The second component records
the traced packet with the `(tmin, tmax)` bounds passed to the tracer,
`none` when no trace happened. -/
def shadePixelGroup (tracer : FourRays → RayTracingResult) (lightPos : Vec3)
    (pos lAdd : FourVectors) (len : Fin 4 → ℚ) :
    FourVectors × Option (FourRays × ℚ × ℚ) :=
  if ∀ i, lAdd i = Vec3.zero then (lAdd, none)
  else
    let ray := buildShadowRay lightPos pos len
    let r := tracer ray
    (fun i => if shadowMask r len i then Vec3.zero else lAdd i,
      some (ray, traceTMin, traceTMax))

/-- The amended property of the per-group shadow step, packaged for claim
C4: nothing is traced for an identically-zero group; otherwise the packet's
direction is the normalized direction toward the light, the origin is the
pixel position biased 0.02 along the direction, the trace is invoked with
tmin = 0 and tmax = 1e9 (a large constant, **not** the ray length), and a
lane is zeroed iff it reports a hit with id ≥ 0 at a distance below that
lane's distance to the light. -/
def c4Conclusion (tracer : FourRays → RayTracingResult) (lightPos : Vec3)
    (pos lAdd : FourVectors) (len : Fin 4 → ℚ) : Prop :=
  ((∀ i, lAdd i = Vec3.zero) →
      shadePixelGroup tracer lightPos pos lAdd len = (lAdd, none)) ∧
    (¬ (∀ i, lAdd i = Vec3.zero) →
      (shadePixelGroup tracer lightPos pos lAdd len).2 =
          some (buildShadowRay lightPos pos len, traceTMin, traceTMax) ∧
        (∀ i,
          (buildShadowRay lightPos pos len).direction i =
              (1 / len i) • (lightPos - pos i) ∧
            ((buildShadowRay lightPos pos len).direction i).normSq = 1 ∧
            (buildShadowRay lightPos pos len).origin i =
              pos i + (0.02 : ℚ) • (buildShadowRay lightPos pos len).direction i) ∧
        (∀ i,
          (shadePixelGroup tracer lightPos pos lAdd len).1 i =
            if 0 ≤ (tracer (buildShadowRay lightPos pos len)).hitIds i ∧
                (tracer (buildShadowRay lightPos pos len)).hitDistance i < len i
            then Vec3.zero else lAdd i))

/-- `MessageToLPreview`, the inbound message union (declared in
lpreview_thread.h, dispatched in lines 447-479).  Of the G-buffer payload
only the parts the verified claims touch are modelled: the albedo
dimensions, the position pixels (input of `CalculateSceneBounds`), the eye
position and the generation counter. -/
inductive MessageToLPreview where
  | exitMsg
  | lightData (lights : List LightDescr) (eye : Vec3)
  | geomData (tris : List Vec3)
  | gBuffers (albedoSize : Nat × Nat) (positions : List Vec3) (eye : Vec3)
      (generation : Int)
deriving DecidableEq

/-- The `CLightingPreviewThread` state (lines 89-224).  Image matrices are
tracked by their dimensions, the ray-tracing environment by its presence,
and each light of the list carries its `CIncrementalLightInfo` inline (the
source links the two by back-pointers); infos orphaned by a replaced light
list are dropped (no verified claim re-adds a removed light). -/
structure ThreadState where
  lightList : Option (List LightPair)
  rtEnv : Bool
  accStructureBuilt : Bool
  lastEyePosition : Vec3
  resultChangedSinceLastSend : Bool
  fLastSendTime : ℚ
  nBitmapGenerationCounter : Int
  nContributionCounter : Int
  minViewCoords : Vec3
  maxViewCoords : Vec3
  albedoSize : Nat × Nat
deriving DecidableEq

/-- The `CLightingPreviewThread` constructor (lines 117-128); vectors and
image sizes zero-initialize. -/
def ThreadState.init : ThreadState :=
  { lightList := none
    rtEnv := false
    accStructureBuilt := false
    lastEyePosition := Vec3.zero
    resultChangedSinceLastSend := false
    fLastSendTime := -1000000
    nBitmapGenerationCounter := -1
    nContributionCounter := 1000000
    minViewCoords := Vec3.zero
    maxViewCoords := Vec3.zero
    albedoSize := (0, 0) }

/-- The per-light body of `CLightingPreviewThread::DiscardResults`
(lines 178-193): per-info discard followed by the distance-to-eye refresh
(0 for a directional light, else the eye distance through `distTo`). -/
def discardPairUpd (eye : Vec3) (distTo : Vec3 → Vec3 → ℚ) (p : LightPair) :
    LightPair :=
  (p.1,
    { p.2.discardResults with
      fDistanceToEye :=
        if p.1.lightType = .directional then 0 else distTo eye p.1.position })

/-- `CLightingPreviewThread::DiscardResults` (lines 175-196), parameterized
by the current time (`Plat_FloatTime`) and the Euclidean distance function
(`Vector::DistTo`, external math library): discard every light's results,
bump the contribution counter, refresh the distances, mark the result
changed and backdate the last send time by 9 seconds to force a send. -/
def ThreadState.discardResults (now : ℚ) (distTo : Vec3 → Vec3 → ℚ)
    (s : ThreadState) : ThreadState :=
  { s with
    lightList := s.lightList.map (List.map (discardPairUpd s.lastEyePosition distTo))
    nContributionCounter := s.nContributionCounter + 1
    resultChangedSinceLastSend := true
    fLastSendTime := now - 9 }

/-- `CLightingPreviewThread::AnyUsefulWorkToDo` (lines 481-494): the first
light with work decides, returning whether the ray-tracing environment
exists; this equals "some light has work AND the environment exists". -/
def ThreadState.anyUsefulWorkToDo (s : ThreadState) : Bool :=
  match s.lightList with
  | none => false
  | some ls => ls.any (fun p => p.2.hasWorkToDo) && s.rtEnv

/-- The infos reachable from the current light list. -/
def ThreadState.infos (s : ThreadState) : List IncrInfo :=
  (s.lightList.getD []).map (fun p => p.2)

/-- `CLightingPreviewThread::UpdateIncrementalForNewLightList`
(lines 394-422): each incoming light adopts the existing info whose object
id matches, else gets a fresh info carrying its id. -/
def updateIncremental (oldInfos : List IncrInfo) (lights : List LightDescr) :
    List LightPair :=
  lights.map (fun d =>
    match oldInfos.find? (fun i => i.nObjectID == d.nObjectID) with
    | some i => (d, i)
    | none => (d, { IncrInfo.init with nObjectID := d.nObjectID }))

/-- `CLightingPreviewThread::HandleGeomMessage` (lines 343-361): replace
the ray-tracing environment (present iff the triangle list is nonempty),
mark the acceleration structure unbuilt, and discard results. -/
def handleGeomMessage (now : ℚ) (distTo : Vec3 → Vec3 → ℚ) (tris : List Vec3)
    (s : ThreadState) : ThreadState :=
  ThreadState.discardResults now distTo
    { s with rtEnv := !tris.isEmpty, accStructureBuilt := false }

/-- `CLightingPreviewThread::CalculateSceneBounds` (lines 364-391):
componentwise min/max over the eye position and every position pixel. -/
def calculateSceneBounds (eye : Vec3) (positions : List Vec3) : Vec3 × Vec3 :=
  positions.foldl (fun mm p => (mm.1.cmin p, mm.2.cmax p)) (eye, eye)

/-- `CLightingPreviewThread::HandleGBuffersMessage` (lines 521-533): import
the images, record the eye, remember the generation counter and recompute
the scene bounds. -/
def handleGBuffersMessage (albedoSize : Nat × Nat) (positions : List Vec3)
    (eye : Vec3) (generation : Int) (s : ThreadState) : ThreadState :=
  let mm := calculateSceneBounds eye positions
  { s with
    albedoSize := albedoSize
    lastEyePosition := eye
    nBitmapGenerationCounter := generation
    minViewCoords := mm.1
    maxViewCoords := mm.2 }

/-- `CLightingPreviewThread::HandleAMessage` (lines 447-479); returns
whether the thread should exit.  Note that the GEOM_DATA case discards
results twice: once inside `HandleGeomMessage` (line 359) and once in the
dispatcher (line 469). -/
def handleAMessage (now : ℚ) (distTo : Vec3 → Vec3 → ℚ)
    (msg : MessageToLPreview) (s : ThreadState) : Bool × ThreadState :=
  match msg with
  | .exitMsg => (true, s)
  | .lightData lights eye =>
    (false,
      ThreadState.discardResults now distTo
        { s with
          lightList := some (updateIncremental s.infos lights)
          lastEyePosition := eye })
  | .geomData tris =>
    (false, ThreadState.discardResults now distTo (handleGeomMessage now distTo tris s))
  | .gBuffers sz ps eye g =>
    (false, ThreadState.discardResults now distTo (handleGBuffersMessage sz ps eye g s))

/-- The post-fan-out update of `CalculateForLight` (lines 661-698): the
contribution matrix is sized to the albedo image, the four worker
magnitudes are summed in join order into the total, the matrix is released
iff the total is zero, else the current contribution counter (never
incremented here) is stamped; the stage becomes the new increment level —
previous stage + 1 when the state was PARTIAL_RESULTS, else 0 — and the
state becomes HAVE_FULL_RESULTS iff that level equals N-1, else
PARTIAL_RESULTS. -/
def calculateForLight (t0 t1 t2 t3 : ℚ) (albedoSize : Nat × Nat)
    (counter : Int) (i : IncrInfo) : IncrInfo :=
  let newIncrLevel : Int :=
    if i.eIncrState = .partRes then 1 + i.partResultsStage else 0
  let total := t0 + t1 + t2 + t3
  { i with
    fTotalContribution := total
    contributionSize := if total = 0 then (0, 0) else albedoSize
    nMostRecentNonZeroContributionTimeStamp :=
      if total = 0 then i.nMostRecentNonZeroContributionTimeStamp else counter
    partResultsStage := newIncrLevel
    eIncrState :=
      if newIncrLevel = (N_INCREMENTAL_STEPS : Int) - 1 then .haveFull
      else .partRes }

/-- The selection loop of `CLightingPreviewThread::DoWork` (lines 500-510):
scan the lights in order; a light with work replaces the current best when
there is none yet or the best is lower-priority than it.  Returns the index
of the chosen light. -/
def pickBest (mn mx : Vec3) (ls : List LightPair) : Option Nat :=
  (ls.enum.foldl
    (fun best p =>
      if p.2.2.hasWorkToDo then
        match best with
        | none => some p
        | some b => if isLowerPriorityThan mn mx b.2 p.2 then some p else some b
      else best)
    none).map (fun b => b.1)

/-- `CLightingPreviewThread::DoWork` (lines 496-518), with the four worker
magnitudes of the kernel fan-out supplied as the oracle `t`: build the
acceleration structure on first use, update the chosen light through
`calculateForLight`, and mark the result changed when the new total
contribution is nonzero. -/
def doWork (t : ℚ × ℚ × ℚ × ℚ) (s : ThreadState) : ThreadState :=
  match s.lightList with
  | none => s
  | some ls =>
    match pickBest s.minViewCoords s.maxViewCoords ls with
    | none => s
    | some idx =>
      let newTotal := t.1 + t.2.1 + t.2.2.1 + t.2.2.2
      { s with
        accStructureBuilt := s.accStructureBuilt || s.rtEnv
        lightList := some (ls.mapIdx (fun j p =>
          if j = idx then
            (p.1, calculateForLight t.1 t.2.1 t.2.2.1 t.2.2.2 s.albedoSize
              s.nContributionCounter p.2)
          else p))
        resultChangedSinceLastSend :=
          s.resultChangedSinceLastSend || decide (newTotal ≠ 0) }

/-- One observable event of the scheduler. -/
inductive TraceEv where
  | consumed (m : MessageToLPreview)
  | emitted (generation : Int)
  | crashedNullLightList
deriving DecidableEq

/-- The send block at the bottom of `CLightingPreviewThread::Run`
(lines 434-443) with `SendResult` (lines 536-567): when the result changed
and (more than 10 seconds passed since the last send, or no useful work
remains), `SendResult` runs.  `SendResult` dereferences `m_pLightList`
unconditionally (line 540, `m_pLightList->Count()`), so with no light list
the thread crashes (`crashedNullLightList`); otherwise it emits a bitmap
carrying the current generation counter, and the loop clears the
changed flag and records the send time. -/
def sendCheck (now : ℚ) (s : ThreadState) : List TraceEv × ThreadState :=
  if s.resultChangedSinceLastSend then
    if now - s.fLastSendTime > 10 ∨ s.anyUsefulWorkToDo = false then
      match s.lightList with
      | none => ([.crashedNullLightList], s)
      | some _ =>
        ([.emitted s.nBitmapGenerationCounter],
          { s with resultChangedSinceLastSend := false, fLastSendTime := now })
    else ([], s)
  else ([], s)

/-- The scheduler loop `CLightingPreviewThread::Run` (lines 425-445) as a
fuel-bounded transition function over the inbound queue `msgs`, a clock
stream `clock` (one reading per loop iteration, indexed by `cIdx`) and the
kernel oracle `kernel` (the four worker magnitudes of the `kIdx`-th
`CalculateForLight` fan-out).  Handling one queued message re-enters the
inner receive loop; with useful work and an empty queue one `DoWork` plus
one send check run per outer iteration; an Exit message runs the final send
check and stops; a blocking receive on an empty queue (the thread waits
forever) or fuel exhaustion ends the trace. -/
def runAux (distTo : Vec3 → Vec3 → ℚ) (clock : Nat → ℚ)
    (kernel : Nat → ℚ × ℚ × ℚ × ℚ) :
    Nat → ThreadState → List MessageToLPreview → Nat → Nat → List TraceEv
  | 0, _, _, _, _ => []
  | fuel + 1, s, msgs, cIdx, kIdx =>
    if s.anyUsefulWorkToDo = false ∨ msgs ≠ [] then
      match msgs with
      | [] => []
      | m :: rest =>
        .consumed m ::
          (if (handleAMessage (clock cIdx) distTo m s).1 then
            (sendCheck (clock (cIdx + 1)) (handleAMessage (clock cIdx) distTo m s).2).1
          else
            runAux distTo clock kernel fuel (handleAMessage (clock cIdx) distTo m s).2
              rest (cIdx + 1) kIdx)
    else
      (sendCheck (clock cIdx) (doWork (kernel kIdx) s)).1 ++
        runAux distTo clock kernel fuel
          (sendCheck (clock cIdx) (doWork (kernel kIdx) s)).2 msgs (cIdx + 1) (kIdx + 1)

/-- The generation-echo property of a trace: every emitted generation
equals the generation of the most recently consumed GBuffers message (`g`
for emissions before the first one). -/
def genEchoOK : Int → List TraceEv → Prop
  | _, [] => True
  | _, .consumed (.gBuffers _ _ _ g') :: t => genEchoOK g' t
  | g, .emitted h :: t => h = g ∧ genEchoOK g t
  | g, _ :: t => genEchoOK g t

/-- The indices of the set bits of a 32-bit mask, in increasing order. -/
def setBits (mask : Nat) : List Nat :=
  (List.range 32).filter (fun c => mask &&& (1 <<< c) ≠ 0)

/-- First element of `l` minimizing `idist · m`; on a list in increasing
order a strict comparison breaks ties toward the lower index. -/
def argminDist (m : Nat) (l : List Nat) : Option Nat :=
  l.foldl
    (fun acc c =>
      match acc with
      | none => some c
      | some b => if idist c m < idist b m then some c else some b)
    none

/-- The spec's words for claim C2: the argmin over **all** set bits of
`line_mask[k]` of `|bit - m|`, ties broken toward the lower index. -/
def closestLineSpec (k m : Nat) : Option Nat :=
  argminDist m (setBits (lineMask k))

/-- The amended form: the argmin over the set bits of `line_mask[k]` that do
not exceed `m` (the source scans `chk` only up to `linemod`). -/
def closestLineSpecLe (k m : Nat) : Option Nat :=
  argminDist m ((setBits (lineMask k)).filter (fun c => c ≤ m))

end LPreview

namespace LPreview

set_option maxRecDepth 65536

/-- Claim C2, counterexample: at refinement level `k = 1` (set bits 0 and 16)
and row offset `m = 9`, the argmin over all set bits of `|bit - 9|` is 16
(distance 7 beats distance 9), but the precomputed table holds 0: the source
loop `for (chk = 0; chk <= linemod; chk++)` never examines bits above `m`. -/
theorem c2_counterexample :
    ¬ some (closestLineOffset 1 9) = closestLineSpec 1 9 := by decide

/-- Claim C2 (amended): for every level `k < N` and row offset `m ≤ N`,
`closest_line[k][m]` is the argmin over the set bits of `line_mask[k]` **not
exceeding `m`** of `|bit - m|`, ties broken toward the lower index (bit 0 is
always set, so the restricted set is never empty). -/
theorem c2_closest_line_amended :
    ∀ k, k < 32 → ∀ m, m ≤ 32 →
      some (closestLineOffset k m) = closestLineSpecLe k m := by decide

/-- Witness for `c2_closest_line_amended` at `k = 3`, `m = 7`. -/
theorem c2_closest_line_amended_witness :
    some (closestLineOffset 3 7) = closestLineSpecLe 3 7 :=
  c2_closest_line_amended 3 (by decide) 7 (by decide)

/-- Claim C6: for every level `k ∈ [1, N)` the mask `line_mask[k-1]` is a
proper subset of `line_mask[k]` (as sets of bit positions below 32); each
`line_mask[k]` is `line_mask[k-1]` OR the single bit at position
`bitReverse k` (bit-reversal of `k` over `log2 N = 5` bits); level 0
contributes row 0, level 1 row `N/2 = 16`, level 2 row `N/4 = 8`; and
`line_mask[N-1]` has all `N = 32` low bits set. -/
theorem c6_line_mask_monotone :
    (∀ k, k < 32 → 1 ≤ k →
        (∀ b, b < 32 → (lineMask (k - 1)).testBit b = true →
            (lineMask k).testBit b = true) ∧
          lineMask (k - 1) ≠ lineMask k ∧
          lineMask k = lineMask (k - 1) ||| (1 <<< bitReverse k)) ∧
      bitReverse 0 = 0 ∧ bitReverse 1 = 16 ∧ bitReverse 2 = 8 ∧
      lineMask 31 = 2 ^ 32 - 1 := by decide

/-- Claim C9, counterexample: a **directional** light whose position field is
the origin, in state NEW, with scene bounds `[-1,1]^3`, is reported
high-priority — `IsHighPriority` never consults the light's type, so a
directional light is not exempt. -/
theorem c9_counterexample :
    isHighPriority ⟨-1, -1, -1⟩ ⟨1, 1, 1⟩
        (⟨7, .directional, ⟨0, 0, 0⟩⟩, IncrInfo.init) = true ∧
      (⟨7, .directional, ⟨0, 0, 0⟩⟩ : LightDescr).lightType = .directional := by
  decide

/-- Claim C9 (amended): `IsHighPriority` returns true iff the light's state
is NEW and its position field lies within the scene bounds, for every light
type alike — the code never consults the type, so a directional light whose
position field happens to lie in the bounds is high-priority too. -/
theorem c9_high_priority_iff (mn mx : Vec3) (p : LightPair) :
    isHighPriority mn mx p = true ↔
      p.2.eIncrState = .stNew ∧ withinAABox p.1.position mn mx = true := by
  simp [isHighPriority]

/-- Witness for `c9_high_priority_iff`: a NEW point light at the origin with
bounds `[-1,1]^3`. -/
theorem c9_high_priority_iff_witness :
    isHighPriority ⟨-1, -1, -1⟩ ⟨1, 1, 1⟩
        (⟨3, .other, ⟨0, 0, 0⟩⟩, IncrInfo.init) = true ↔
      (IncrInfo.init.eIncrState = .stNew ∧
        withinAABox ⟨0, 0, 0⟩ ⟨-1, -1, -1⟩ ⟨1, 1, 1⟩ = true) :=
  c9_high_priority_iff ⟨-1, -1, -1⟩ ⟨1, 1, 1⟩ (⟨3, .other, ⟨0, 0, 0⟩⟩, IncrInfo.init)

/-- Claim C1, counterexample: two PARTIAL_RESULTS lights, both with zero
total contribution, one at refinement stage 5 with timestamp 10, the other at
stage 0 with timestamp 5.  No compared quantity is tied, yet each reports
`IsLowerPriorityThan` the other (the first via the stage rule, the second via
the timestamp rule), so the relation is not antisymmetric. -/
theorem c1_counterexample :
    ¬ (isLowerPriorityThan ⟨0, 0, 0⟩ ⟨0, 0, 0⟩
          (⟨1, .other, ⟨5, 5, 5⟩⟩,
            ⟨1, .partRes, 5, (0, 0), 0, 0, 10⟩)
          (⟨2, .other, ⟨5, 5, 5⟩⟩,
            ⟨2, .partRes, 0, (0, 0), 0, 0, 5⟩) = true ↔
        ¬ isLowerPriorityThan ⟨0, 0, 0⟩ ⟨0, 0, 0⟩
            (⟨2, .other, ⟨5, 5, 5⟩⟩,
              ⟨2, .partRes, 0, (0, 0), 0, 0, 5⟩)
            (⟨1, .other, ⟨5, 5, 5⟩⟩,
              ⟨1, .partRes, 5, (0, 0), 0, 0, 10⟩) = true) := by
  decide

/-- Arithmetic core of the PARTIAL/PARTIAL priority case for claim C1. -/
theorem pp_aux (astg bstg ats bts : ℤ) (atot btot : ℚ)
    (ha : 0 ≤ atot) (hb : 0 ≤ btot)
    (hbug : ¬(atot = 0 ∧ btot = 0 ∧ 2 ≤ (astg - bstg).natAbs ∧
        ((bstg < astg ∧ bts < ats) ∨ (astg < bstg ∧ ats < bts))))
    (hab : (if atot = 0 ∧ btot = 0 ∧ bts > ats then true
        else if btot = 0 ∧ atot > 0 then false
        else if atot = 0 ∧ btot > 0 then true
        else if (astg - bstg).natAbs ≤ 1 then decide (atot < btot)
        else decide (astg > bstg)) = true)
    (hba : (if btot = 0 ∧ atot = 0 ∧ ats > bts then true
        else if atot = 0 ∧ btot > 0 then false
        else if btot = 0 ∧ atot > 0 then true
        else if (bstg - astg).natAbs ≤ 1 then decide (btot < atot)
        else decide (bstg > astg)) = true) : False := by
  by_cases hA : atot = 0 <;> by_cases hB : btot = 0
  · subst hA
    subst hB
    simp at hab hba hbug
    omega
  · have hBpos : 0 < btot := hb.lt_of_ne (Ne.symm hB)
    rw [if_neg (by tauto), if_pos ⟨hA, hBpos⟩] at hba
    exact absurd hba (by simp)
  · have hApos : 0 < atot := ha.lt_of_ne (Ne.symm hA)
    rw [if_neg (by tauto), if_pos ⟨hB, hApos⟩] at hab
    exact absurd hab (by simp)
  · rw [if_neg (by tauto), if_neg (by tauto), if_neg (by tauto)] at hab
    rw [if_neg (by tauto), if_neg (by tauto), if_neg (by tauto)] at hba
    have hcomm : (bstg - astg).natAbs = (astg - bstg).natAbs := by omega
    rw [hcomm] at hba
    by_cases hgap : (astg - bstg).natAbs ≤ 1
    · rw [if_pos hgap] at hab hba
      simp only [decide_eq_true_eq] at hab hba
      linarith
    · rw [if_neg hgap] at hab hba
      simp only [decide_eq_true_eq] at hab hba
      omega

/-- Helper for claim C1: outside the one violating configuration, the
state-combination switch never reports each light lower-priority than the
other. -/
theorem lowerCore_asymm (a b : LightPair)
    (ha : 0 ≤ a.2.fTotalContribution) (hb : 0 ≤ b.2.fTotalContribution)
    (hbug : ¬ (a.2.eIncrState = .partRes ∧ b.2.eIncrState = .partRes ∧
        a.2.fTotalContribution = 0 ∧ b.2.fTotalContribution = 0 ∧
        2 ≤ (a.2.partResultsStage - b.2.partResultsStage).natAbs ∧
        ((b.2.partResultsStage < a.2.partResultsStage ∧
            b.2.nMostRecentNonZeroContributionTimeStamp <
              a.2.nMostRecentNonZeroContributionTimeStamp) ∨
          (a.2.partResultsStage < b.2.partResultsStage ∧
            a.2.nMostRecentNonZeroContributionTimeStamp <
              b.2.nMostRecentNonZeroContributionTimeStamp)))) :
    ¬ (lowerCore a b = true ∧ lowerCore b a = true) := by
  obtain ⟨ad, aoid, ast, astg, asz, atot, adst, ats⟩ := a
  obtain ⟨bd, boid, bst, bstg, bsz, btot, bdst, bts⟩ := b
  simp only at ha hb hbug
  rintro ⟨hab, hba⟩
  cases ast <;> cases bst <;>
    simp only [lowerCore, decide_eq_true_eq, Bool.false_eq_true] at hab hba
  · by_cases h : atot = 0 ∧ btot = 0
    · rw [if_pos h] at hab
      rw [if_pos ⟨h.2, h.1⟩] at hba
      simp only [decide_eq_true_eq] at hab hba
      omega
    · rw [if_neg h] at hab
      rw [if_neg (fun hc => h ⟨hc.2, hc.1⟩)] at hba
      simp only [decide_eq_true_eq] at hab hba
      linarith
  · by_cases hA : atot = 0
    · rw [if_neg (not_not_intro hA)] at hab hba
      by_cases h : btot = 0
      · rw [if_pos ⟨hA, h⟩] at hab
        rw [if_pos ⟨h, hA⟩] at hba
        simp only [decide_eq_true_eq] at hab hba
        omega
      · rw [if_neg (by tauto)] at hab
        rw [if_neg (by tauto)] at hba
        simp only [decide_eq_true_eq] at hab hba
        linarith
    · rw [if_pos hA] at hab
      exact absurd hab (by simp)
  · linarith
  · by_cases hB : btot = 0
    · rw [if_neg (not_not_intro hB)] at hab hba
      by_cases h : atot = 0
      · rw [if_pos ⟨h, hB⟩] at hab
        rw [if_pos ⟨hB, h⟩] at hba
        simp only [decide_eq_true_eq] at hab hba
        omega
      · rw [if_neg (by tauto)] at hab
        rw [if_neg (by tauto)] at hba
        simp only [decide_eq_true_eq] at hab hba
        linarith
    · rw [if_pos hB] at hba
      exact absurd hba (by simp)
  · exact pp_aux astg bstg ats bts atot btot ha hb
      (fun hc => hbug ⟨rfl, rfl, hc.1, hc.2.1, hc.2.2.1, hc.2.2.2⟩) hab hba
  · linarith
  · linarith

/-- Helper for claim C1: asymmetry of `IsLowerPriorityThan` lifted through
the high-priority test. -/
theorem isLowerPriorityThan_asymm (mn mx : Vec3) (a b : LightPair)
    (ha : 0 ≤ a.2.fTotalContribution) (hb : 0 ≤ b.2.fTotalContribution)
    (hbug : ¬ (a.2.eIncrState = .partRes ∧ b.2.eIncrState = .partRes ∧
        a.2.fTotalContribution = 0 ∧ b.2.fTotalContribution = 0 ∧
        2 ≤ (a.2.partResultsStage - b.2.partResultsStage).natAbs ∧
        ((b.2.partResultsStage < a.2.partResultsStage ∧
            b.2.nMostRecentNonZeroContributionTimeStamp <
              a.2.nMostRecentNonZeroContributionTimeStamp) ∨
          (a.2.partResultsStage < b.2.partResultsStage ∧
            a.2.nMostRecentNonZeroContributionTimeStamp <
              b.2.nMostRecentNonZeroContributionTimeStamp)))) :
    ¬ (isLowerPriorityThan mn mx a b = true ∧
        isLowerPriorityThan mn mx b a = true) := by
  have hcore := lowerCore_asymm a b ha hb hbug
  unfold isLowerPriorityThan
  cases hA : isHighPriority mn mx a <;> cases hB : isHighPriority mn mx b <;>
    simp [hA, hB] <;>
    exact fun h1 => Bool.eq_false_iff.2 fun h2 => hcore ⟨h1, h2⟩

/-- Claim C1 (amended): for any two non-Full IncrementalStates A, B with
nonnegative total contributions that do not fall under a tie rule (a tie
resolves both comparisons to "not lower priority"),
`A.IsLowerPriorityThan(B) ⇔ ¬ B.IsLowerPriorityThan(A)` — **except** in the
configuration where both states are PARTIAL_RESULTS, both total
contributions are zero, the refinement stages differ by at least 2, and the
strictly more refined light also carries the strictly more recent nonzero
timestamp; there each light compares lower-priority than the other (see
`c1_counterexample`). -/
theorem c1_priority_antisymmetry (mn mx : Vec3) (a b : LightPair)
    (ha : 0 ≤ a.2.fTotalContribution) (hb : 0 ≤ b.2.fTotalContribution)
    (hfa : a.2.eIncrState ≠ .haveFull) (hfb : b.2.eIncrState ≠ .haveFull)
    (htie : ¬ (isLowerPriorityThan mn mx a b = false ∧
        isLowerPriorityThan mn mx b a = false))
    (hbug : ¬ (a.2.eIncrState = .partRes ∧ b.2.eIncrState = .partRes ∧
        a.2.fTotalContribution = 0 ∧ b.2.fTotalContribution = 0 ∧
        2 ≤ (a.2.partResultsStage - b.2.partResultsStage).natAbs ∧
        ((b.2.partResultsStage < a.2.partResultsStage ∧
            b.2.nMostRecentNonZeroContributionTimeStamp <
              a.2.nMostRecentNonZeroContributionTimeStamp) ∨
          (a.2.partResultsStage < b.2.partResultsStage ∧
            a.2.nMostRecentNonZeroContributionTimeStamp <
              b.2.nMostRecentNonZeroContributionTimeStamp)))) :
    isLowerPriorityThan mn mx a b = true ↔
      ¬ isLowerPriorityThan mn mx b a = true := by
  have hasym := isLowerPriorityThan_asymm mn mx a b ha hb hbug
  constructor
  · intro h1 h2
    exact hasym ⟨h1, h2⟩
  · intro h2
    cases h : isLowerPriorityThan mn mx a b
    · exact absurd ⟨h, Bool.eq_false_iff.2 h2⟩ htie
    · rfl

/-- Witness for `c1_priority_antisymmetry`: two PARTIAL_RESULTS lights at
equal stage with total contributions 1 and 2. -/
theorem c1_priority_antisymmetry_witness :
    isLowerPriorityThan ⟨0, 0, 0⟩ ⟨0, 0, 0⟩
        (⟨1, .other, ⟨5, 5, 5⟩⟩, ⟨1, .partRes, 0, (0, 0), 1, 0, 0⟩)
        (⟨2, .other, ⟨5, 5, 5⟩⟩, ⟨2, .partRes, 0, (0, 0), 2, 0, 0⟩) = true ↔
      ¬ isLowerPriorityThan ⟨0, 0, 0⟩ ⟨0, 0, 0⟩
          (⟨2, .other, ⟨5, 5, 5⟩⟩, ⟨2, .partRes, 0, (0, 0), 2, 0, 0⟩)
          (⟨1, .other, ⟨5, 5, 5⟩⟩, ⟨1, .partRes, 0, (0, 0), 1, 0, 0⟩) = true :=
  c1_priority_antisymmetry ⟨0, 0, 0⟩ ⟨0, 0, 0⟩
    (⟨1, .other, ⟨5, 5, 5⟩⟩, ⟨1, .partRes, 0, (0, 0), 1, 0, 0⟩)
    (⟨2, .other, ⟨5, 5, 5⟩⟩, ⟨2, .partRes, 0, (0, 0), 2, 0, 0⟩)
    (by decide) (by decide) (by decide) (by decide) (by decide) (by decide)

/-- Unfolding lemma for `Vec3` subtraction. -/
theorem Vec3.sub_def (a b : Vec3) :
    a - b = ⟨a.x - b.x, a.y - b.y, a.z - b.z⟩ := rfl

/-- Addition of `Vec3` is commutative. -/
theorem Vec3.addComm (a b : Vec3) : a + b = b + a := by
  cases a
  cases b
  show Vec3.mk _ _ _ = Vec3.mk _ _ _
  simp only [Vec3.mk.injEq]
  refine ⟨by ring, by ring, by ring⟩

/-- Unfolding lemma for `Vec3` addition. -/
theorem Vec3.add_def (a b : Vec3) :
    a + b = ⟨a.x + b.x, a.y + b.y, a.z + b.z⟩ := rfl

/-- Unfolding lemma for `Vec3` scalar multiplication. -/
theorem Vec3.smul_def (c : ℚ) (v : Vec3) :
    c • v = ⟨c * v.x, c * v.y, c * v.z⟩ := rfl

/-- Claim C4, counterexample: with the light at `(3,0,0)`, the pixel group
at the origin (per-lane ray length 3) and a nonzero unshadowed contribution,
the packet is traced with max-t equal to the constant `1e9` — not the ray
length 3 as the claim states. -/
theorem c4_counterexample :
    ((shadePixelGroup (fun _ => ⟨fun _ => (-1 : Int), fun _ => 0⟩)
          ⟨3, 0, 0⟩ (fun _ => ⟨0, 0, 0⟩) (fun _ => ⟨1, 1, 1⟩)
          (fun _ => 3)).2.map (fun t => t.2.2)) = some traceTMax ∧
      traceTMax ≠ (3 : ℚ) := by
  constructor
  · decide
  · decide

/-- Claim C4 (amended): in the shading kernel, for every 4-pixel group whose
unshadowed contribution is not identically zero, a 4-ray packet is traced
with direction = normalize(light position - pixel position) (unit squared
norm), origin = pixel position + 0.02 times the direction, tmin = 0 and
tmax = 1e9 (a large constant — **not** the ray length); and a lane's
contribution is zeroed iff that lane reports a hit id ≥ 0 at a hit distance
less than that lane's distance to the light.  A group with identically zero
contribution is stored unchanged with no trace. -/
theorem c4_shadow_kernel (tracer : FourRays → RayTracingResult)
    (lightPos : Vec3) (pos lAdd : FourVectors) (len : Fin 4 → ℚ)
    (hlen : ∀ i, 0 < len i ∧ len i * len i = (lightPos - pos i).normSq) :
    c4Conclusion tracer lightPos pos lAdd len := by
  unfold c4Conclusion
  constructor
  · intro hz
    unfold shadePixelGroup
    rw [if_pos hz]
  · intro hnz
    refine ⟨?_, ?_, ?_⟩
    · unfold shadePixelGroup
      rw [if_neg hnz]
    · intro i
      obtain ⟨hpos, hsq⟩ := hlen i
      have hne : len i ≠ 0 := ne_of_gt hpos
      refine ⟨rfl, ?_, ?_⟩
      · show ((1 / len i) • (lightPos - pos i)).normSq = 1
        rw [Vec3.sub_def] at hsq ⊢
        rw [Vec3.smul_def]
        unfold Vec3.normSq at hsq ⊢
        dsimp only at hsq ⊢
        field_simp
        linarith [hsq]
      · exact Vec3.addComm _ _
    · intro i
      unfold shadePixelGroup
      rw [if_neg hnz]
      show (if shadowMask (tracer (buildShadowRay lightPos pos len)) len i
          then Vec3.zero else lAdd i) = _
      unfold shadowMask
      by_cases h : 0 ≤ (tracer (buildShadowRay lightPos pos len)).hitIds i ∧
          (tracer (buildShadowRay lightPos pos len)).hitDistance i < len i
      · rw [if_pos h, if_pos]
        simp [h.1, h.2]
      · rw [if_neg h, if_neg]
        simp only [Bool.and_eq_true, decide_eq_true_eq]
        exact h

/-- Witness for `c4_shadow_kernel`: light at `(3,0,0)`, pixel group at the
origin, lane lengths 3, a tracer that reports no hits. -/
theorem c4_shadow_kernel_witness :
    c4Conclusion (fun _ => ⟨fun _ => (-1 : Int), fun _ => 0⟩) ⟨3, 0, 0⟩
      (fun _ => ⟨0, 0, 0⟩) (fun _ => ⟨1, 1, 1⟩) (fun _ => 3) :=
  c4_shadow_kernel (fun _ => ⟨fun _ => (-1 : Int), fun _ => 0⟩) ⟨3, 0, 0⟩
    (fun _ => ⟨0, 0, 0⟩) (fun _ => ⟨1, 1, 1⟩) (fun _ => 3)
    (by
      intro i
      refine ⟨by norm_num, ?_⟩
      rw [Vec3.sub_def]
      unfold Vec3.normSq
      dsimp only
      norm_num)

/-- The generation counter survives a discard. -/
theorem discardResults_gen (now : ℚ) (distTo : Vec3 → Vec3 → ℚ)
    (s : ThreadState) :
    (ThreadState.discardResults now distTo s).nBitmapGenerationCounter =
      s.nBitmapGenerationCounter := rfl

/-- After handling a message the generation counter is the handled GBuffers
generation, otherwise unchanged. -/
theorem handleAMessage_gen (now : ℚ) (distTo : Vec3 → Vec3 → ℚ)
    (m : MessageToLPreview) (s : ThreadState) :
    (handleAMessage now distTo m s).2.nBitmapGenerationCounter =
      match m with
      | .gBuffers _ _ _ g => g
      | _ => s.nBitmapGenerationCounter := by
  cases m <;> rfl

/-- `DoWork` never touches the generation counter. -/
theorem doWork_gen (t : ℚ × ℚ × ℚ × ℚ) (s : ThreadState) :
    (doWork t s).nBitmapGenerationCounter = s.nBitmapGenerationCounter := by
  unfold doWork
  split
  · rfl
  · split
    · rfl
    · rfl

/-- The send check never touches the generation counter. -/
theorem sendCheck_gen (now : ℚ) (s : ThreadState) :
    (sendCheck now s).2.nBitmapGenerationCounter =
      s.nBitmapGenerationCounter := by
  unfold sendCheck
  split
  · split
    · split
      · rfl
      · rfl
    · rfl
  · rfl

/-- Consuming a message updates the running generation of `genEchoOK` the
way `handleAMessage` updates the state's counter. -/
theorem genEchoOK_cons_consumed (g : Int) (m : MessageToLPreview)
    (t : List TraceEv)
    (h : genEchoOK
      (match m with | .gBuffers _ _ _ g' => g' | _ => g) t) :
    genEchoOK g (.consumed m :: t) := by
  cases m <;> exact h

/-- The events of one send check preserve `genEchoOK` when the state holds
the running generation. -/
theorem genEchoOK_sendCheck_append (now : ℚ) (s : ThreadState) (g : Int)
    (t : List TraceEv) (hg : s.nBitmapGenerationCounter = g)
    (ht : genEchoOK g t) :
    genEchoOK g ((sendCheck now s).1 ++ t) := by
  unfold sendCheck
  split
  · split
    · split
      · exact ht
      · exact ⟨hg, ht⟩
    · exact ht
  · exact ht

/-- Claim C5: along every trace of the scheduler loop — any initial state,
inbound queue, clock and kernel oracle, and fuel bound — every emitted
DisplayResult carries the generation of the most recently consumed GBuffers
message (the state's current counter before the first one): the counter is
written only by the GBuffers handler and echoed by every send. -/
theorem c5_generation_echo (distTo : Vec3 → Vec3 → ℚ) (clock : Nat → ℚ)
    (kernel : Nat → ℚ × ℚ × ℚ × ℚ) (fuel : Nat) (s : ThreadState)
    (msgs : List MessageToLPreview) (cIdx kIdx : Nat) :
    genEchoOK s.nBitmapGenerationCounter
      (runAux distTo clock kernel fuel s msgs cIdx kIdx) := by
  induction fuel generalizing s msgs cIdx kIdx with
  | zero => exact trivial
  | succ n ih =>
    unfold runAux
    split
    · match msgs with
      | [] => exact trivial
      | m :: rest =>
        have hgen :
            genEchoOK
              (handleAMessage (clock cIdx) distTo m s).2.nBitmapGenerationCounter
              (if (handleAMessage (clock cIdx) distTo m s).1 then
                (sendCheck (clock (cIdx + 1))
                  (handleAMessage (clock cIdx) distTo m s).2).1
              else
                runAux distTo clock kernel n
                  (handleAMessage (clock cIdx) distTo m s).2 rest (cIdx + 1)
                  kIdx) := by
          split
          · rw [← List.append_nil (sendCheck _ _).1]
            exact genEchoOK_sendCheck_append _ _ _ _ rfl trivial
          · exact ih _ rest (cIdx + 1) kIdx
        rw [handleAMessage_gen] at hgen
        exact genEchoOK_cons_consumed _ m _ hgen
    · apply genEchoOK_sendCheck_append
      · exact doWork_gen _ _
      · have h2 := ih (sendCheck (clock cIdx) (doWork (kernel kIdx) s)).2 msgs
          (cIdx + 1) (kIdx + 1)
        rwa [sendCheck_gen, doWork_gen] at h2

/-- The per-light update of the thread-level discard is idempotent. -/
theorem discardPairUpd_idem (eye : Vec3) (distTo : Vec3 → Vec3 → ℚ)
    (p : LightPair) :
    discardPairUpd eye distTo (discardPairUpd eye distTo p) =
      discardPairUpd eye distTo p := by
  obtain ⟨d, i⟩ := p
  unfold discardPairUpd IncrInfo.discardResults
  by_cases h : i.eIncrState = .stNew <;> simp [h]

/-- Claim C7, counterexample: calling `DiscardResults` twice from the
initial state leaves a different engine state than calling it once — the
global contribution counter is bumped by each call (1000002 vs 1000001), so
discard is not idempotent as claimed. -/
theorem c7_counterexample :
    ThreadState.discardResults 0 (fun _ _ => 0)
        (ThreadState.discardResults 0 (fun _ _ => 0) ThreadState.init) ≠
      ThreadState.discardResults 0 (fun _ _ => 0) ThreadState.init := by
  intro h
  have h2 := congrArg ThreadState.nContributionCounter h
  exact absurd h2 (by decide)

/-- Claim C7 (amended): calling discard-results twice in a row (at the same
clock reading) yields exactly the state of calling it once — every
per-light state, level, contribution matrix, total contribution, timestamp
and distance, the result-changed flag and the last-send time — **except**
the global contribution counter, which is one larger after the second
call. -/
theorem c7_discard_idempotent_mod_counter (now : ℚ)
    (distTo : Vec3 → Vec3 → ℚ) (s : ThreadState) :
    ThreadState.discardResults now distTo
        (ThreadState.discardResults now distTo s) =
      { ThreadState.discardResults now distTo s with
        nContributionCounter :=
          (ThreadState.discardResults now distTo s).nContributionCounter + 1 } := by
  obtain ⟨ll, rt, acc, eye, rc, lst, gen, ctr, mn, mx, asz⟩ := s
  cases ll with
  | none => rfl
  | some l =>
    unfold ThreadState.discardResults
    dsimp only
    simp only [ThreadState.mk.injEq, Option.map_some', List.map_map,
      and_true, true_and]
    exact congrArg some
      (List.map_congr_left fun p _ => discardPairUpd_idem eye distTo p)

/-- Claim C3, counterexample: a light in state NEW whose kernel fan-out
sums to zero does not leave "everything else unchanged": its state moves to
PARTIAL_RESULTS (lines 693-697 run regardless of the total). -/
theorem c3_counterexample :
    (calculateForLight 0 0 0 0 (8, 8) 1000000 IncrInfo.init).eIncrState ≠
      IncrInfo.init.eIncrState := by decide

/-- Claim C3 (amended): after the four-way fan-out the four magnitudes are
summed in join order into `total_contribution`; the matrix is released iff
the sum is zero; the timestamp is stamped with the **current** contribution
counter iff the sum is nonzero (the counter itself is never incremented by
the work path — only discard-results bumps it); and regardless of the sum
the level becomes the new increment level (previous level + 1 when the
state was Partial, else 0) with the state becoming Full iff that level is
N-1, else Partial. -/
theorem c3_kernel_update (t0 t1 t2 t3 : ℚ) (sz : Nat × Nat) (ctr : Int)
    (i : IncrInfo) (t : ℚ × ℚ × ℚ × ℚ) (s : ThreadState) :
    (calculateForLight t0 t1 t2 t3 sz ctr i).fTotalContribution =
        t0 + t1 + t2 + t3 ∧
      (calculateForLight t0 t1 t2 t3 sz ctr i).contributionSize =
        (if t0 + t1 + t2 + t3 = 0 then (0, 0) else sz) ∧
      (calculateForLight t0 t1 t2 t3 sz ctr i).nMostRecentNonZeroContributionTimeStamp =
        (if t0 + t1 + t2 + t3 = 0 then
          i.nMostRecentNonZeroContributionTimeStamp else ctr) ∧
      (calculateForLight t0 t1 t2 t3 sz ctr i).partResultsStage =
        (if i.eIncrState = .partRes then 1 + i.partResultsStage else 0) ∧
      (calculateForLight t0 t1 t2 t3 sz ctr i).eIncrState =
        (if (if i.eIncrState = .partRes then 1 + i.partResultsStage else 0) =
            (N_INCREMENTAL_STEPS : Int) - 1 then .haveFull else .partRes) ∧
      (doWork t s).nContributionCounter = s.nContributionCounter := by
  refine ⟨rfl, rfl, rfl, rfl, rfl, ?_⟩
  unfold doWork
  split
  · rfl
  · split
    · rfl
    · rfl

/-- A discard keeps the light list present. -/
theorem discardResults_lightList_some (now : ℚ) (distTo : Vec3 → Vec3 → ℚ)
    (s : ThreadState) (h : s.lightList ≠ none) :
    (ThreadState.discardResults now distTo s).lightList ≠ none := by
  intro hc
  apply h
  unfold ThreadState.discardResults at hc
  simpa using hc

/-- The send-pacing property packaged for claim C8: a bitmap goes out of
one send check iff the result changed and (more than 10 seconds passed
since the last send or no useful work remains); and a discard backdates the
last-send time to 9 seconds ago with the changed flag set, so the very next
send check emits as soon as more than one second has passed (or sooner, if
no useful work remains). -/
def c8Concl (s : ThreadState) (now : ℚ) : Prop :=
  ((∃ g, TraceEv.emitted g ∈ (sendCheck now s).1) ↔
      (s.resultChangedSinceLastSend = true ∧
        (now - s.fLastSendTime > 10 ∨ s.anyUsefulWorkToDo = false))) ∧
    ∀ t distTo,
      (ThreadState.discardResults t distTo s).fLastSendTime = t - 9 ∧
        (ThreadState.discardResults t distTo s).resultChangedSinceLastSend = true ∧
        ∀ t', t' - t > 1 →
          ∃ g, TraceEv.emitted g ∈
            (sendCheck t' (ThreadState.discardResults t distTo s)).1

/-- Claim C8: in every scheduler iteration (the send check runs exactly
once per outer `Run` iteration) a DisplayResult is emitted iff the result
changed since the last send and either more than 10 seconds elapsed since
the last send or no useful work remains; and after every discard-results
the last-send time is backdated by 9 seconds so the next send is
near-immediate (within one second, or immediate once work runs out). -/
theorem c8_send_pacing (s : ThreadState) (now : ℚ)
    (h : s.lightList ≠ none) : c8Concl s now := by
  constructor
  · constructor
    · intro hex
      obtain ⟨g, hg⟩ := hex
      unfold sendCheck at hg
      split at hg
      · rename_i h1
        split at hg
        · rename_i h2
          exact ⟨h1, h2⟩
        · simp at hg
      · simp at hg
    · rintro ⟨h1, h2⟩
      unfold sendCheck
      rw [if_pos h1, if_pos h2]
      cases hll : s.lightList with
      | none => exact absurd hll h
      | some l => exact ⟨s.nBitmapGenerationCounter, by simp⟩
  · intro t distTo
    refine ⟨rfl, rfl, ?_⟩
    intro t' ht'
    unfold sendCheck
    rw [if_pos (show (ThreadState.discardResults t distTo s).resultChangedSinceLastSend = true from rfl)]
    rw [if_pos (Or.inl (show t' - (ThreadState.discardResults t distTo s).fLastSendTime > 10 from by
      show t' - (t - 9) > 10
      linarith))]
    cases hll : (ThreadState.discardResults t distTo s).lightList with
    | none => exact absurd hll (discardResults_lightList_some t distTo s h)
    | some l =>
      exact ⟨(ThreadState.discardResults t distTo s).nBitmapGenerationCounter, by simp⟩

/-- Witness for `c8_send_pacing`: the initial state given an empty light
list, checked at time 0. -/
theorem c8_send_pacing_witness :
    c8Concl { ThreadState.init with lightList := some [] } 0 :=
  c8_send_pacing { ThreadState.init with lightList := some [] } 0 (by decide)

/-- With no light list there is no useful work. -/
theorem anyUseful_none (s : ThreadState) (h : s.lightList = none) :
    s.anyUsefulWorkToDo = false := by
  unfold ThreadState.anyUsefulWorkToDo
  rw [h]

/-- One non-exit message step of the loop: consume the message, continue
with the updated state. -/
theorem runAux_cons_msg (distTo : Vec3 → Vec3 → ℚ) (clock : Nat → ℚ)
    (kernel : Nat → ℚ × ℚ × ℚ × ℚ) (fuel : Nat) (s : ThreadState)
    (m : MessageToLPreview) (rest : List MessageToLPreview) (cIdx kIdx : Nat)
    (hm : (handleAMessage (clock cIdx) distTo m s).1 = false) :
    runAux distTo clock kernel (fuel + 1) s (m :: rest) cIdx kIdx =
      .consumed m ::
        runAux distTo clock kernel fuel
          (handleAMessage (clock cIdx) distTo m s).2 rest (cIdx + 1) kIdx := by
  conv_lhs => unfold runAux
  rw [if_pos (Or.inr (by simp))]
  dsimp only
  rw [hm]
  simp

/-- An Exit message on a state with results marked changed but no light
list runs the final send check, which dereferences the null light list. -/
theorem runAux_exit_crash (distTo : Vec3 → Vec3 → ℚ) (clock : Nat → ℚ)
    (kernel : Nat → ℚ × ℚ × ℚ × ℚ) (fuel : Nat) (s : ThreadState)
    (rest : List MessageToLPreview) (cIdx kIdx : Nat)
    (hl : s.lightList = none) (hrc : s.resultChangedSinceLastSend = true) :
    runAux distTo clock kernel (fuel + 1) s (.exitMsg :: rest) cIdx kIdx =
      [.consumed .exitMsg, .crashedNullLightList] := by
  conv_lhs => unfold runAux
  rw [if_pos (Or.inr (by simp))]
  show TraceEv.consumed MessageToLPreview.exitMsg ::
      (sendCheck (clock (cIdx + 1)) s).1 =
    [TraceEv.consumed MessageToLPreview.exitMsg, TraceEv.crashedNullLightList]
  unfold sendCheck
  rw [if_pos hrc, if_pos (Or.inr (anyUseful_none s hl)), hl]

/-- Claim C10: the message sequence Geometry-then-Exit from the initial
state (no LightList ever received) reaches the send path with a null light
list: the Geometry handler marks the result changed and backdates the send
time, the Exit iteration sees "no useful work" and invokes `SendResult`,
whose unconditional `m_pLightList->Count()` dereferences null.  The claimed
safety property fails on this reachable sequence. -/
theorem c10_null_lightlist_crash :
    TraceEv.crashedNullLightList ∈
      runAux (fun _ _ => 0) (fun _ => 0) (fun _ => (0, 0, 0, 0)) 2
        ThreadState.init
        [.geomData [⟨0, 0, 0⟩, ⟨0, 0, 0⟩, ⟨0, 0, 0⟩], .exitMsg] 0 0 := by
  rw [runAux_cons_msg (fun _ _ => 0) (fun _ => 0) (fun _ => (0, 0, 0, 0)) 1
    ThreadState.init (.geomData [⟨0, 0, 0⟩, ⟨0, 0, 0⟩, ⟨0, 0, 0⟩]) [.exitMsg]
    0 0 rfl]
  rw [runAux_exit_crash (fun _ _ => 0) (fun _ => 0) (fun _ => (0, 0, 0, 0)) 0
    (handleAMessage ((fun _ : Nat => (0 : ℚ)) 0) (fun _ _ => 0)
      (.geomData [⟨0, 0, 0⟩, ⟨0, 0, 0⟩, ⟨0, 0, 0⟩]) ThreadState.init).2 []
    1 0 rfl rfl]
  simp

end LPreview
